import Mathlib

/-!
Verification development for the albert launcher core shell
(src/lib/albertcore/src/core/albert.cpp).

The embedding models:
* `dispatchMessage` — the IPC server handler for one accepted connection;
* the IPC/singleton section of `Core.AlbertApp.run` (lines 102-136) as a
  trace of observable steps, parameterized by the environment (whether the
  connect succeeded, the positional arguments, whether a reply arrived in
  the bounded wait, whether the server bind succeeded);
* the database-initialization section of `Core.AlbertApp.run`
  (lines 228-265): fatal-vs-warning control flow, the idempotent schema
  creation, and the retention-window deletes.

Machine-level details abstracted: socket byte transport is a `String`
payload (the code reads and writes whole byte arrays per connection), the
SQL julianday values are rationals measured in days.
-/

namespace Albert

/-- Front-end visibility control calls made by the server handler:
`Frontend::setVisible(bool)` and `Frontend::toggleVisibility()`. -/
inductive FrontendAction where
  | setVisible (visible : Bool)
  | toggleVisibility
deriving DecidableEq

/-- Modelled from the spec: the front-end is an external collaborator, so
the effect of its visibility controls is taken from the specification
boundary — `setVisible b` makes visibility `b`, `toggleVisibility`
negates it. -/
def applyAction (visible : Bool) : FrontendAction → Bool
  | .setVisible b => b
  | .toggleVisibility => !visible

/-- Observable outcome of servicing one accepted connection. -/
structure DispatchResult where
  action  : Option FrontendAction
  reply   : Option String
  flushed : Bool
  closed  : Bool
deriving DecidableEq

/-- Embedding of `dispatchMessage` (albert.cpp lines 537-557).  The input
is the byte payload available on the socket after the bounded 500 ms
`waitForReadyRead`; `none` means `bytesAvailable()` was zero. -/
def dispatchMessage : Option String → DispatchResult
  | none => { action := none, reply := none, flushed := true, closed := true }
  | some msg =>
    if msg = "show" then
      { action := some (.setVisible true), reply := some "Application set visible.",
        flushed := true, closed := true }
    else if msg = "hide" then
      { action := some (.setVisible false), reply := some "Application set invisible.",
        flushed := true, closed := true }
    else if msg = "toggle" then
      { action := some .toggleVisibility, reply := some "Visibility toggled.",
        flushed := true, closed := true }
    else
      { action := none, reply := some "Command not supported.",
        flushed := true, closed := true }

/-- Substring test on the underlying character lists (used to state that a
reply contains a given text). -/
def strContains (hay needle : String) : Bool :=
  (List.range (hay.data.length + 1)).any
    (fun i => (hay.data.drop i).take needle.data.length == needle.data)

/-- `EXIT_SUCCESS` as passed to `::exit`. -/
def EXIT_SUCCESS : Nat := 0

/-- `EXIT_FAILURE` as passed to `::exit`. -/
def EXIT_FAILURE : Nat := 1

/-- Observable steps of the IPC/singleton section of `AlbertApp::run`. -/
inductive IpcStep where
  | writeSocket (payload : String)
  | flushSocket
  | waitReply
  | printInfo (text : String)
  | closeSocket
  | exitProcess (code : Nat)
  | removeStaleServer (path : String)
  | bindServer (path : String)
  | warnBindFailed
  | registerConnectionHandler
  | continueStartup
deriving DecidableEq

/-- The rendezvous endpoint path:
`QStandardPaths::writableLocation(CacheLocation) + "/socket"`. -/
def socketPath (cacheLocation : String) : String := cacheLocation ++ "/socket"

/-- Environment of the IPC section: the per-user cache directory, whether
`socket.waitForConnected(500)` succeeded, the positional arguments, the
reply bytes available after the client `waitForReadyRead(500)` (`none` if
the bounded wait elapsed with nothing available), and whether
`localServer->listen(socketPath)` succeeded. -/
structure IpcEnv where
  cacheLocation : String
  connected : Bool
  args : List String
  reply : Option String
  listenOk : Bool

/-- Embedding of the IPC/singleton section of `AlbertApp::run`
(albert.cpp lines 102-136) as the trace of observable steps it performs
in the given environment. -/
def ipcSection (env : IpcEnv) : List IpcStep :=
  let path := socketPath env.cacheLocation
  if env.connected then
    (match env.args with
     | [cmd] =>
        [.writeSocket cmd, .flushSocket, .waitReply] ++
        (match env.reply with
         | some r => [.printInfo r]
         | none => [])
     | _ => [.printInfo "There is another instance of albert running."]) ++
    [.closeSocket, .exitProcess EXIT_SUCCESS]
  else
    match env.args with
    | [_] =>
        [.printInfo "There is no other instance of albert running.",
         .exitProcess EXIT_FAILURE]
    | _ =>
        [.removeStaleServer path, .bindServer path] ++
        (if env.listenOk then [] else [.warnBindFailed]) ++
        [.registerConnectionHandler, .continueStartup]

/-- Qt message severities handled by `myMessageOutput`. -/
inductive QtMsgType where
  | debug
  | info
  | warning
  | critical
  | fatal
deriving DecidableEq

/-- Embedding of the control effect of `myMessageOutput`
(albert.cpp lines 500-533): only a fatal message terminates the process
(`exit(1)` in the `QtFatalMsg` case); all other severities return. -/
def messageHandlerExits : QtMsgType → Bool
  | .fatal => true
  | _ => false

/-- Environment of the database-initialization section: whether the
QSQLITE driver is available (`db.isValid()`), whether it reports the
`Transactions` feature, whether `db.open()` succeeds, and whether each of
the four statements (`CREATE TABLE IF NOT EXISTS` twice, `DELETE` twice)
executes without error. -/
structure DbEnv where
  driverValid : Bool
  hasTransactions : Bool
  openOk : Bool
  createUsagesOk : Bool
  createRuntimesOk : Bool
  pruneUsagesOk : Bool
  pruneRuntimesOk : Bool

/-- Outcome of the database-initialization section: either a fatal
message via `qFatal` (which terminates the process) or success together
with the list of warnings emitted. -/
inductive DbInitOutcome where
  | fatal (message : String)
  | ok (warnings : List String)
deriving DecidableEq

/-- Embedding of the database-initialization control flow of
`AlbertApp::run` (albert.cpp lines 228-265): driver validity, transaction
support and `open` failures are `qFatal`; table-creation failures are
`qFatal`; cleanup (`DELETE`) failures are only `qWarning`. -/
def dbInit (env : DbEnv) : DbInitOutcome :=
  if !env.driverValid then .fatal "No sqlite available"
  else if !env.hasTransactions then .fatal "QSqlDriver::Transactions not available."
  else if !env.openOk then .fatal "Unable to create a database connection."
  else if !env.createUsagesOk then .fatal "Unable to create table usages"
  else if !env.createRuntimesOk then .fatal "Unable to create table runtimes"
  else .ok ((if env.pruneUsagesOk then [] else ["Unable to cleanup usages table."]) ++
            (if env.pruneRuntimesOk then [] else ["Unable to cleanup runtimes table."]))

/-- A row of the `usages` table: `input TEXT NOT NULL`, `itemId TEXT`
(nullable), `timestamp DATETIME`.  The timestamp is kept as its julianday
value, a rational number of days. -/
structure UsageRow where
  input : String
  itemId : Option String
  timestamp : ℚ
deriving DecidableEq

/-- A row of the `runtimes` table: `extensionId TEXT NOT NULL`,
`runtime INTEGER NOT NULL`, `timestamp DATETIME` (as julianday). -/
structure RuntimeRow where
  extensionId : String
  runtime : Int
  timestamp : ℚ
deriving DecidableEq

/-- Embedding of
`DELETE FROM usages WHERE julianday(now)-julianday(timestamp)>90`
(albert.cpp line 259): the rows kept are exactly those the WHERE clause
rejects. -/
def pruneUsages (now : ℚ) (rows : List UsageRow) : List UsageRow :=
  rows.filter (fun r => !decide (now - r.timestamp > 90))

/-- Embedding of
`DELETE FROM runtimes WHERE julianday(now)-julianday(timestamp)>7`
(albert.cpp line 262). -/
def pruneRuntimes (now : ℚ) (rows : List RuntimeRow) : List RuntimeRow :=
  rows.filter (fun r => !decide (now - r.timestamp > 7))

/-- A database schema: the list of tables, each with its column names, in
creation order. -/
structure Schema where
  tables : List (String × List String)
deriving DecidableEq

/-- Whether the schema has a table of the given name. -/
def hasTable (s : Schema) (name : String) : Bool :=
  s.tables.any (fun t => t.1 == name)

/-- Semantics of `CREATE TABLE IF NOT EXISTS name (cols)`: a no-op
(without error) when the table exists, otherwise the table is added. -/
def createTableIfNotExists (s : Schema) (name : String) (cols : List String) : Schema :=
  if hasTable s name then s else ⟨s.tables ++ [(name, cols)]⟩

/-- Column names of `usages` (albert.cpp lines 244-248). -/
def usagesColumns : List String := ["input", "itemId", "timestamp"]

/-- Column names of `runtimes` (albert.cpp lines 251-255). -/
def runtimesColumns : List String := ["extensionId", "runtime", "timestamp"]

/-- The two `CREATE TABLE IF NOT EXISTS` statements run at store
initialization, in source order. -/
def createCoreTables (s : Schema) : Schema :=
  createTableIfNotExists
    (createTableIfNotExists s "usages" usagesColumns) "runtimes" runtimesColumns

/-- The schema of a fresh database file. -/
def emptySchema : Schema := ⟨[]⟩

/-- C10: an accepted connection that delivers no bytes within the bounded
wait gets no reply at all, triggers no visibility action, and is flushed
and closed. -/
theorem dispatchMessage_no_bytes :
    dispatchMessage none =
      { action := none, reply := none, flushed := true, closed := true } := rfl

/-- C1: the server maps received text by exact comparison — `show` invokes
`setVisible true` (making the front-end visible), `hide` invokes
`setVisible false` (making it invisible), `toggle` invokes
`toggleVisibility` (negating visibility), each with a short
acknowledgement written back; any other text gets a reply containing
"not supported"; in every case the connection is flushed and closed. -/
theorem dispatchMessage_command_mapping (msg : String) (v : Bool)
    (h1 : msg ≠ "show") (h2 : msg ≠ "hide") (h3 : msg ≠ "toggle") :
    dispatchMessage (some "show") =
      { action := some (FrontendAction.setVisible true),
        reply := some "Application set visible.", flushed := true, closed := true }
  ∧ dispatchMessage (some "hide") =
      { action := some (FrontendAction.setVisible false),
        reply := some "Application set invisible.", flushed := true, closed := true }
  ∧ dispatchMessage (some "toggle") =
      { action := some FrontendAction.toggleVisibility,
        reply := some "Visibility toggled.", flushed := true, closed := true }
  ∧ applyAction v (FrontendAction.setVisible true) = true
  ∧ applyAction v (FrontendAction.setVisible false) = false
  ∧ applyAction v FrontendAction.toggleVisibility = !v
  ∧ dispatchMessage (some msg) =
      { action := none, reply := some "Command not supported.",
        flushed := true, closed := true }
  ∧ strContains "Command not supported." "not supported" = true := by
  refine ⟨by decide, by decide, by decide, rfl, rfl, rfl, ?_, by decide⟩
  simp [dispatchMessage, h1, h2, h3]

/-- Witness for C1 at the concrete unsupported message "status". -/
theorem dispatchMessage_command_mapping_witness :
    ("status" ≠ "show" ∧ "status" ≠ "hide" ∧ "status" ≠ "toggle")
  ∧ dispatchMessage (some "status") =
      { action := none, reply := some "Command not supported.",
        flushed := true, closed := true } :=
  ⟨by decide,
   (dispatchMessage_command_mapping "status" false
     (by decide) (by decide) (by decide)).2.2.2.2.2.2.1⟩

/-- C3: with a command token supplied and no running instance reachable,
the invocation prints that no instance is running and exits with
`EXIT_FAILURE`, which is non-zero; it never exits successfully. -/
theorem ipcSection_command_no_instance (cmd cache : String) (lo : Bool)
    (reply : Option String) :
    ipcSection ⟨cache, false, [cmd], reply, lo⟩ =
      [IpcStep.printInfo "There is no other instance of albert running.",
       IpcStep.exitProcess EXIT_FAILURE]
  ∧ EXIT_FAILURE ≠ 0
  ∧ IpcStep.exitProcess EXIT_SUCCESS ∉ ipcSection ⟨cache, false, [cmd], reply, lo⟩ := by
  refine ⟨rfl, by decide, ?_⟩
  simp [ipcSection, EXIT_FAILURE, EXIT_SUCCESS]

/-- C4: a connected invocation with no command token prints that another
instance is running, closes the connection and exits successfully without
ever waiting for a reply or writing to the socket; a dataless connection
causes no visibility action on the server side. -/
theorem ipcSection_already_running (cache : String) (lo : Bool)
    (reply : Option String) :
    ipcSection ⟨cache, true, [], reply, lo⟩ =
      [IpcStep.printInfo "There is another instance of albert running.",
       IpcStep.closeSocket, IpcStep.exitProcess EXIT_SUCCESS]
  ∧ EXIT_SUCCESS = 0
  ∧ IpcStep.waitReply ∉ ipcSection ⟨cache, true, [], reply, lo⟩
  ∧ (∀ s, IpcStep.writeSocket s ∉ ipcSection ⟨cache, true, [], reply, lo⟩)
  ∧ (dispatchMessage none).action = none := by
  refine ⟨rfl, rfl, ?_, ?_, rfl⟩
  · simp [ipcSection]
  · intro s
    simp [ipcSection]

/-- C2: a connected invocation carrying exactly one command token writes
the token to the socket verbatim, waits the bounded time for a reply,
prints the reply when one arrives, and exits with `EXIT_SUCCESS` (zero);
no other exit code is ever reached, in particular a timed-out wait
(`reply = none`) still exits successfully. -/
theorem ipcSection_command_roundtrip (cmd cache : String) (lo : Bool)
    (reply : Option String) :
    IpcStep.writeSocket cmd ∈ ipcSection ⟨cache, true, [cmd], reply, lo⟩
  ∧ IpcStep.waitReply ∈ ipcSection ⟨cache, true, [cmd], reply, lo⟩
  ∧ (∀ r, reply = some r → IpcStep.printInfo r ∈ ipcSection ⟨cache, true, [cmd], reply, lo⟩)
  ∧ IpcStep.exitProcess EXIT_SUCCESS ∈ ipcSection ⟨cache, true, [cmd], reply, lo⟩
  ∧ (∀ c, c ≠ EXIT_SUCCESS → IpcStep.exitProcess c ∉ ipcSection ⟨cache, true, [cmd], reply, lo⟩)
  ∧ EXIT_SUCCESS = 0 := by
  obtain _ | r := reply
  · refine ⟨?_, ?_, ?_, ?_, ?_, rfl⟩
    · simp [ipcSection]
    · simp [ipcSection]
    · intro r h
      exact absurd h (by simp)
    · simp [ipcSection]
    · intro c hc
      simp [ipcSection, EXIT_SUCCESS] at *
      exact fun h => absurd h hc
  · refine ⟨?_, ?_, ?_, ?_, ?_, rfl⟩
    · simp [ipcSection]
    · simp [ipcSection]
    · intro r' h
      obtain rfl : r = r' := by simpa using h
      simp [ipcSection]
    · simp [ipcSection]
    · intro c hc
      simp [ipcSection, EXIT_SUCCESS] at *
      exact fun h => absurd h hc

/-- Witness for C2 at the concrete command "toggle" with a reply. -/
theorem ipcSection_command_roundtrip_witness :
    IpcStep.writeSocket "toggle" ∈
      ipcSection ⟨"/home/u/.cache/albert", true, ["toggle"], some "Visibility toggled.", true⟩ :=
  (ipcSection_command_roundtrip "toggle" "/home/u/.cache/albert" true
    (some "Visibility toggled.")).1

/-- C5: an invocation that could not connect and carries no command token
becomes the running instance: the trace first removes the potentially
stale rendezvous endpoint, then binds a fresh server at the per-user
cache path `cacheLocation ++ "/socket"`, registers the connection
handler, and continues startup without exiting. -/
theorem ipcSection_becomes_instance (cache : String) (lo : Bool)
    (reply : Option String) :
    (ipcSection ⟨cache, false, [], reply, lo⟩)[0]? =
      some (IpcStep.removeStaleServer (socketPath cache))
  ∧ (ipcSection ⟨cache, false, [], reply, lo⟩)[1]? =
      some (IpcStep.bindServer (socketPath cache))
  ∧ IpcStep.registerConnectionHandler ∈ ipcSection ⟨cache, false, [], reply, lo⟩
  ∧ IpcStep.continueStartup ∈ ipcSection ⟨cache, false, [], reply, lo⟩
  ∧ (∀ c, IpcStep.exitProcess c ∉ ipcSection ⟨cache, false, [], reply, lo⟩)
  ∧ socketPath cache = cache ++ "/socket" := by
  obtain _ | _ := lo <;>
    exact ⟨rfl, rfl, by simp [ipcSection], by simp [ipcSection],
           fun c => by simp [ipcSection], rfl⟩

/-- C9: when the rendezvous endpoint cannot be bound, the trace records
only a warning and still reaches the rest of startup; no exit happens,
and a warning severity does not terminate the process (unlike fatal). -/
theorem ipcSection_bind_failure_nonfatal (cache : String) (reply : Option String) :
    IpcStep.warnBindFailed ∈ ipcSection ⟨cache, false, [], reply, false⟩
  ∧ IpcStep.continueStartup ∈ ipcSection ⟨cache, false, [], reply, false⟩
  ∧ (∀ c, IpcStep.exitProcess c ∉ ipcSection ⟨cache, false, [], reply, false⟩)
  ∧ messageHandlerExits QtMsgType.warning = false
  ∧ messageHandlerExits QtMsgType.fatal = true := by
  exact ⟨by simp [ipcSection], by simp [ipcSection],
         fun c => by simp [ipcSection], rfl, rfl⟩

/-- Witness for C3 at the command "show". -/
theorem ipcSection_command_no_instance_witness :
    ipcSection ⟨"/home/u/.cache/albert", false, ["show"], none, true⟩ =
      [IpcStep.printInfo "There is no other instance of albert running.",
       IpcStep.exitProcess EXIT_FAILURE] :=
  (ipcSection_command_no_instance "show" "/home/u/.cache/albert" true none).1

/-- Witness for C4 at a concrete environment. -/
theorem ipcSection_already_running_witness :
    ipcSection ⟨"/home/u/.cache/albert", true, [], none, true⟩ =
      [IpcStep.printInfo "There is another instance of albert running.",
       IpcStep.closeSocket, IpcStep.exitProcess EXIT_SUCCESS] :=
  (ipcSection_already_running "/home/u/.cache/albert" true none).1

/-- Witness for C5 at a concrete environment. -/
theorem ipcSection_becomes_instance_witness :
    (ipcSection ⟨"/home/u/.cache/albert", false, [], none, true⟩)[0]? =
      some (IpcStep.removeStaleServer (socketPath "/home/u/.cache/albert")) :=
  (ipcSection_becomes_instance "/home/u/.cache/albert" true none).1

/-- Witness for C9 at a concrete environment. -/
theorem ipcSection_bind_failure_nonfatal_witness :
    IpcStep.warnBindFailed ∈ ipcSection ⟨"/home/u/.cache/albert", false, [], none, false⟩ :=
  (ipcSection_bind_failure_nonfatal "/home/u/.cache/albert" none).1

/-- Creating a table leaves every table behind and adds the new name. -/
lemma hasTable_createTableIfNotExists (s : Schema) (n : String) (cols : List String)
    (m : String) :
    hasTable (createTableIfNotExists s n cols) m = (hasTable s m || (n == m)) := by
  unfold createTableIfNotExists
  cases h : hasTable s n
  · simp [hasTable, List.any_append, h]
  · simp only [h, if_true]
    cases hm : (n == m)
    · simp [hm]
    · have hnm : n = m := by simpa using hm
      subst hnm
      simp [h]

/-- After running the two creation statements both tables exist. -/
lemma createCoreTables_hasTables (s : Schema) :
    hasTable (createCoreTables s) "usages" = true ∧
    hasTable (createCoreTables s) "runtimes" = true := by
  constructor <;> simp [createCoreTables, hasTable_createTableIfNotExists]

/-- The creation statements are no-ops on a schema already holding both
tables. -/
lemma createCoreTables_noop (s : Schema) (h1 : hasTable s "usages" = true)
    (h2 : hasTable s "runtimes" = true) : createCoreTables s = s := by
  simp [createCoreTables, createTableIfNotExists, h1, h2]

/-- C6: database initialization is fatal when the embedded driver is
unavailable, when it lacks transaction support, or when the database file
cannot be opened; conversely a non-fatal outcome requires all three, so
there is no degraded mode; a fatal message terminates the process. -/
theorem dbInit_fatal_without_persistence (env : DbEnv) :
    (env.driverValid = false → dbInit env = DbInitOutcome.fatal "No sqlite available")
  ∧ (env.driverValid = true → env.hasTransactions = false →
      dbInit env = DbInitOutcome.fatal "QSqlDriver::Transactions not available.")
  ∧ (env.driverValid = true → env.hasTransactions = true → env.openOk = false →
      dbInit env = DbInitOutcome.fatal "Unable to create a database connection.")
  ∧ (∀ w, dbInit env = DbInitOutcome.ok w →
      env.driverValid = true ∧ env.hasTransactions = true ∧ env.openOk = true)
  ∧ messageHandlerExits QtMsgType.fatal = true := by
  refine ⟨?_, ?_, ?_, ?_, rfl⟩
  · intro h
    simp [dbInit, h]
  · intro h1 h2
    simp [dbInit, h1, h2]
  · intro h1 h2 h3
    simp [dbInit, h1, h2, h3]
  · intro w h
    cases hdv : env.driverValid
    · simp [dbInit, hdv] at h
    · cases htx : env.hasTransactions
      · simp [dbInit, hdv, htx] at h
      · cases hop : env.openOk
        · simp [dbInit, hdv, htx, hop] at h
        · exact ⟨rfl, rfl, rfl⟩

/-- Witness for C6 with an unavailable driver. -/
theorem dbInit_fatal_without_persistence_witness :
    ((⟨false, true, true, true, true, true, true⟩ : DbEnv).driverValid = false)
  ∧ dbInit ⟨false, true, true, true, true, true, true⟩ =
      DbInitOutcome.fatal "No sqlite available" :=
  ⟨rfl, (dbInit_fatal_without_persistence ⟨false, true, true, true, true, true, true⟩).1 rfl⟩

/-- C7: the open-time cleanup keeps exactly the rows at most 90 days old
(usages) and at most 7 days old (runtimes) — so a 91-day-old usage row is
deleted and an 89-day-old one survives, and likewise at 8 and 6 days for
runtime rows — and a cleanup failure only yields warnings in an otherwise
successful (non-fatal) initialization. -/
theorem prune_retention_windows (now : ℚ) (usages : List UsageRow)
    (runtimes : List RuntimeRow) :
    (∀ r : UsageRow, r ∈ pruneUsages now usages ↔ r ∈ usages ∧ now - r.timestamp ≤ 90)
  ∧ (∀ r : RuntimeRow, r ∈ pruneRuntimes now runtimes ↔ r ∈ runtimes ∧ now - r.timestamp ≤ 7)
  ∧ pruneUsages 91 [⟨"query", some "item", 0⟩] = []
  ∧ pruneUsages 89 [⟨"query", some "item", 0⟩] = [⟨"query", some "item", 0⟩]
  ∧ pruneRuntimes 8 [⟨"files", 5, 0⟩] = []
  ∧ pruneRuntimes 6 [⟨"files", 5, 0⟩] = [⟨"files", 5, 0⟩]
  ∧ dbInit ⟨true, true, true, true, true, false, false⟩ =
      DbInitOutcome.ok
        ["Unable to cleanup usages table.", "Unable to cleanup runtimes table."]
  ∧ messageHandlerExits QtMsgType.warning = false := by
  refine ⟨?_, ?_, by norm_num [pruneUsages, List.filter],
    by norm_num [pruneUsages, List.filter],
    by norm_num [pruneRuntimes, List.filter],
    by norm_num [pruneRuntimes, List.filter], by decide, rfl⟩
  · intro r
    simp [pruneUsages, List.mem_filter, not_lt]
  · intro r
    simp [pruneRuntimes, List.mem_filter, not_lt]

/-- Witness for C7: the 89-day-old usage row is characterized at the
concrete instance. -/
theorem prune_retention_windows_witness :
    (⟨"query", some "item", 0⟩ : UsageRow) ∈ pruneUsages 89 [⟨"query", some "item", 0⟩] ↔
      (⟨"query", some "item", 0⟩ : UsageRow) ∈ [(⟨"query", some "item", 0⟩ : UsageRow)] ∧
        (89 : ℚ) - (⟨"query", some "item", 0⟩ : UsageRow).timestamp ≤ 90 :=
  (prune_retention_windows 89 [⟨"query", some "item", 0⟩] []).1 ⟨"query", some "item", 0⟩

/-- C8: schema creation is idempotent — rerunning it changes nothing, a
database that already has both tables is left exactly as it is without
failing, and a fresh database ends up with exactly the tables
`usages(input, itemId, timestamp)` and
`runtimes(extensionId, runtime, timestamp)`. -/
theorem schema_creation_idempotent (s : Schema)
    (h1 : hasTable s "usages" = true) (h2 : hasTable s "runtimes" = true) :
    createCoreTables (createCoreTables s) = createCoreTables s
  ∧ createCoreTables s = s
  ∧ (createCoreTables emptySchema).tables =
      [("usages", ["input", "itemId", "timestamp"]),
       ("runtimes", ["extensionId", "runtime", "timestamp"])] := by
  obtain ⟨g1, g2⟩ := createCoreTables_hasTables s
  exact ⟨createCoreTables_noop _ g1 g2, createCoreTables_noop s h1 h2, by decide⟩

/-- Witness for C8 on a schema that already contains both tables. -/
theorem schema_creation_idempotent_witness :
    (hasTable ⟨[("usages", usagesColumns), ("runtimes", runtimesColumns)]⟩ "usages" = true
  ∧ hasTable ⟨[("usages", usagesColumns), ("runtimes", runtimesColumns)]⟩ "runtimes" = true)
  ∧ createCoreTables ⟨[("usages", usagesColumns), ("runtimes", runtimesColumns)]⟩ =
      ⟨[("usages", usagesColumns), ("runtimes", runtimesColumns)]⟩ :=
  ⟨⟨by decide, by decide⟩,
   (schema_creation_idempotent ⟨[("usages", usagesColumns), ("runtimes", runtimesColumns)]⟩
     (by decide) (by decide)).2.1⟩

end Albert
